import Mathlib

/-!
# jplot: the `main` package

A shallow embedding of `main.go` (package `main` of jplot): the start-up gate,
the selection of the data source, the render scheduler loop, `render`,
`fatal` and the three escape-sequence helpers `clear`, `reset`, `cleanup`.

What the program does is recorded as a list of `Event`s, in the order in which
they happen.  Everything the program reads from its surroundings (environment
variables, flags, the result of `data.ParseSpec`, the result of each
`window.Size` call, which case of the `select` fires, the bytes
`dash.Render` writes, the result of `dp.Run`) is an input of the model.
-/

namespace Jplot

/-! ## encoding/base64, `StdEncoding`, as used by `render` -/

/-- The alphabet of `base64.StdEncoding`. -/
def encodeStd : List Char :=
  "ABCDEFGHIJKLMNOPQRSTUVWXYZabcdefghijklmnopqrstuvwxyz0123456789+/".toList

/-- The character `enc.encode[v]`. -/
def b64 (v : Nat) : Char := encodeStd.getD v 'A'

/-- The padding character of `base64.StdEncoding`. -/
def padChar : Char := '='

/-- `Encoding.Encode` of the standard library: every full group of 3 bytes
gives 4 characters, a final group of 1 or 2 bytes gives 2 or 3 characters
followed by padding. Bytes are natural numbers below 256. -/
def encode : List Nat → List Char
  | a :: b :: c :: rest =>
    let val := a * 65536 + b * 256 + c
    b64 (val / 262144 % 64) :: b64 (val / 4096 % 64) :: b64 (val / 64 % 64) ::
      b64 (val % 64) :: encode rest
  | [a, b] =>
    let val := a * 65536 + b * 256
    [b64 (val / 262144 % 64), b64 (val / 4096 % 64), b64 (val / 64 % 64), padChar]
  | [a] =>
    let val := a * 65536
    [b64 (val / 262144 % 64), b64 (val / 4096 % 64), padChar, padChar]
  | [] => []

/-- The streaming encoder returned by `base64.NewEncoder(base64.StdEncoding, &b)`:
`buf` holds the bytes of a group that is not complete yet (`e.buf[:e.nbuf]`,
fewer than 3 bytes between calls), `out` is the content of the
`bytes.Buffer` the encoder writes to. -/
structure Encoder where
  buf : List Nat
  out : List Char
deriving DecidableEq, Repr

/-- The encoder as `base64.NewEncoder` returns it. -/
def Encoder.new : Encoder := ⟨[], []⟩

/-- The "large interior chunks" loop of `encoder.Write` followed by the
"trailing fringe": full groups of 3 bytes are encoded and written, the
remaining 0, 1 or 2 bytes are kept. The result is the text written and the
bytes kept. (The library encodes up to 768 bytes per round; the groups and
their order are the same.) -/
def writeGroups : List Nat → List Char × List Nat
  | a :: b :: c :: rest =>
    let r := writeGroups rest
    (encode [a, b, c] ++ r.1, r.2)
  | p => ([], p)

/-- The "leading fringe" of `encoder.Write`: bytes of `p` are moved to the
pending group until it holds 3 bytes or `p` is used up. The result is the
pending group and what is left of `p`. -/
def fillBuf : List Nat → List Nat → List Nat × List Nat
  | buf, [] => (buf, [])
  | buf, x :: p => if buf.length < 3 then fillBuf (buf ++ [x]) p else (buf, x :: p)

/-- The method `encoder.Write(p)`. Writing to a `bytes.Buffer` does not fail. -/
def Encoder.write (e : Encoder) (p : List Nat) : Encoder :=
  if 0 < e.buf.length then
    let f := fillBuf e.buf p
    if f.1.length < 3 then
      ⟨f.1, e.out⟩
    else
      let r := writeGroups f.2
      ⟨r.2, e.out ++ encode f.1 ++ r.1⟩
  else
    let r := writeGroups p
    ⟨r.2, e.out ++ r.1⟩

/-- The method `encoder.Close()`: a pending partial group is encoded, padded and
written. -/
def Encoder.close (e : Encoder) : Encoder :=
  if 0 < e.buf.length then ⟨[], e.out ++ encode e.buf⟩ else e

/-- The state of the encoder after `dash.Render(enc, width, height)` has made
the given `Write` calls, in order. -/
def afterRender (writes : List (List Nat)) : Encoder :=
  writes.foldl Encoder.write Encoder.new

/-- The image `dash.Render` produced: all bytes it wrote. -/
def imageBytes (writes : List (List Nat)) : List Nat := writes.flatten

/-- The content of the buffer `b` at the `fmt.Printf` of `render`: the deferred
`enc.Close()` has not run yet. -/
def payload (writes : List (List Nat)) : List Char := (afterRender writes).out

/-- The content of the buffer `b` when `render` has returned, the deferred
`enc.Close()` included. That content is not printed. -/
def bufferAtReturn (writes : List (List Nat)) : List Char :=
  (afterRender writes).close.out

/-! ## What the program does: events -/

/-- The result of `window.Size()`: width and height, or an error (its text). -/
inductive SizeResult where
  | ok (width height : Int)
  | err (msg : String)
deriving DecidableEq, Repr

/-- The data source `main` builds: which constructor of package `data` is
called, and with which arguments. -/
inductive Source where
  | fromHTTP (url : String) (interval : Int) (steps : Int)
  | fromStdin (steps : Int)
deriving DecidableEq, Repr

/-- One observable step of the process. -/
inductive Event where
  /-- Text written by the builtin `print` (standard error). -/
  | errOut (s : String)
  /-- Text written by `fmt.Println` or `fmt.Printf` (standard output). -/
  | stdOut (s : String)
  /-- The call `os.Exit(code)`, or the return of `main` (code 0). -/
  | exit (code : Nat)
  /-- The data source is built: `data.FromHTTP` or `data.FromStdin`. -/
  | newSource (src : Source)
  /-- The statement `go func() ...` starts the render task. -/
  | goStart
  /-- The call `dp.Run(specs)` starts. -/
  | run
  /-- The call `dp.Run(specs)` returns: `none` for a nil error. -/
  | runReturn (err : Option String)
  /-- The deferred `close(exit)`. -/
  | closeExit
  /-- The deferred `wg.Wait()` returns. -/
  | wgWait
  /-- The deferred `dp.Close()`. -/
  | dpClose
  /-- A call of `window.Size()` and its result. -/
  | sizeQuery (r : SizeResult)
  /-- The `select` receives from `t.C`. -/
  | recvTick
  /-- The `select` receives from `exit`. -/
  | recvExit
  /-- The call `dash.Render(enc, width, height)`. -/
  | dashRender (width height : Int)
  /-- The deferred `t.Stop()`. -/
  | tickerStop
  /-- The deferred `wg.Done()`. -/
  | wgDone
deriving DecidableEq, Repr

/-! ## `fatal`, `render`, `clear`, `reset`, `cleanup` -/

/-- The text `fmt.Println` writes for string operands: the operands separated
by a space (always, for `Println`), then a newline. An `error` operand is
printed as its text. -/
def sprint : List String → String
  | [] => ""
  | [x] => x
  | x :: y :: rest => x ++ " " ++ sprint (y :: rest)

/-- The line `fmt.Println(a...)` writes. -/
def sprintln (a : List String) : String := sprint a ++ "\n"

/-- The function `fatal(a...)`: `fmt.Println` of `"jplot: "` and the
arguments, then `os.Exit(1)`. Nothing of the process runs after it. -/
def fatal (a : List String) : List Event :=
  [Event.stdOut (sprintln ("jplot: " :: a)), Event.exit 1]

/-- The function `clear()`. `\033\133\110\033\133\062\112` is `ESC [ H ESC [ 2 J`. -/
def clear : List Event :=
  [Event.errOut "\x1b[H\x1b[2J", Event.errOut "\x1b]1337;CursorShape=1\x07"]

/-- The function `reset()`. `\033\133\061\073\061\110` is `ESC [ 1 ; 1 H`. -/
def reset : List Event := [Event.errOut "\x1b[1;1H"]

/-- The function `cleanup()`. -/
def cleanup : List Event := [Event.errOut "\x1b]1337;ClearScrollback\x07"]

/-- The text before the `%s` in the format of the `fmt.Printf` of `render`. -/
def imagePrefix : String := "\x1b]1337;File=preserveAspectRatio=1;inline=1:"

/-- The text after the `%s` in the format of the `fmt.Printf` of `render`. -/
def imageSuffix : String := "\x07"

/-- The function `render(dash, width, height)`. `draw width height` is the list
of `Write` calls `dash.Render` makes on the encoder. The `fmt.Printf` prints
the buffer as it is before the deferred `enc.Close()` runs. -/
def render (draw : Int → Int → List (List Nat)) (width height : Int) : List Event :=
  Event.dashRender width height :: reset ++
    [Event.stdOut (imagePrefix ++ String.mk (payload (draw width height)) ++ imageSuffix)]

/-! ## The render scheduler: the loop of the task started by `main` -/

/-- Which case of the `select` fires. -/
inductive Sel where
  | tick
  | exit
deriving DecidableEq, Repr

/-- What the surroundings supply to one iteration of the loop: the result of
`window.Size()`, the case of the `select` that fires, and the `Write` calls
`dash.Render` makes for a given width and height at that moment. -/
structure Iter where
  size : SizeResult
  sel : Sel
  draw : Int → Int → List (List Nat)

/-- How the loop stands when the supplied iterations are used up: still in the
loop with counter `i`, returned (after the `exit` case), or the process has
exited through `fatal`. -/
inductive Outcome where
  | waiting (i : Nat)
  | returned
  | exited
deriving DecidableEq, Repr

/-- The `for` loop of the render task, entered with counter `i`. The counter is
a Go `int` that starts at 0 and is only incremented, once per tick of a
one-second ticker; it is a natural number here. -/
def schedLoop (i : Nat) : List Iter → List Event × Outcome
  | [] => ([], Outcome.waiting i)
  | it :: rest =>
    match it.size with
    | SizeResult.err e =>
      (Event.sizeQuery (SizeResult.err e) :: fatal ["Cannot get window size: ", e],
        Outcome.exited)
    | SizeResult.ok width height =>
      match it.sel with
      | Sel.tick =>
        let r := schedLoop (i + 1) rest
        (Event.sizeQuery (SizeResult.ok width height) :: Event.recvTick ::
          ((if (i + 1) % 120 = 0 then cleanup else []) ++
            render it.draw width height ++ r.1), r.2)
      | Sel.exit =>
        (Event.sizeQuery (SizeResult.ok width height) :: Event.recvExit ::
          (render it.draw width height ++ [Event.tickerStop, Event.wgDone]),
          Outcome.returned)

/-- The render task from its start: `clear()`, then the loop with `i := 0`. -/
def scheduler (iters : List Iter) : List Event × Outcome :=
  (clear ++ (schedLoop 0 iters).1, (schedLoop 0 iters).2)

/-! ## `main` -/

/-- What the surroundings supply to an iteration of the loop whose `select`
runs while `exit` is still open. -/
structure Frame where
  size : SizeResult
  draw : Int → Int → List (List Nat)

/-- An iteration whose `select` runs while `exit` is open: only `t.C` can be
received from. -/
def Frame.onTick (f : Frame) : Iter := ⟨f.size, Sel.tick, f.draw⟩

/-- The inputs of one run of `main`, taken after `flag.Parse()` has returned.
The render task runs beside `dp.Run`; its iterations are supplied in two parts.
`running` are the loop iterations that take place before `dp.Run` returns: the
channel `exit` is open, so their `select` can only receive a tick. `closing`
are the iterations that take place after the deferred `close(exit)`: their
`select` may receive from either channel. An iteration is placed by its
`select` (by its size query, when that fails), and the trace lists the events
of the two goroutines in that order. -/
structure Env where
  /-- The value of `os.Getenv("TERM_PROGRAM")`. -/
  termProgram : String
  /-- The value of `os.Getenv("TERM")`. -/
  term : String
  /-- The flag `-url`. -/
  url : String
  /-- The flag `-interval`. -/
  interval : Int
  /-- The flag `-steps`. -/
  steps : Int
  /-- The error `data.ParseSpec(flag.Args())` returns, `none` for nil. -/
  specErr : Option String
  running : List Frame
  /-- The error `dp.Run(specs)` returns, `none` for nil. -/
  runErr : Option String
  closing : List Iter

/-- The choice of the data source in `main`. -/
def selectSource (url : String) (interval steps : Int) : Source :=
  if url ≠ "" then Source.fromHTTP url interval steps else Source.fromStdin steps

/-- The end of `main`, from the return of `dp.Run`, the loop being at counter
`i`: `fatal` on an error, else the deferred calls in reverse order of their
`defer` statements: `close(exit)`, `wg.Wait()` (which returns once the render
task has called `wg.Done()`), `dp.Close()`. -/
def afterRun (env : Env) (i : Nat) : List Event :=
  match env.runErr with
  | some e => Event.runReturn (some e) :: fatal ["Data source error: ", e]
  | none =>
    let r := schedLoop i env.closing
    Event.runReturn none :: Event.closeExit :: (r.1 ++
      match r.2 with
      | Outcome.returned => [Event.wgWait, Event.dpClose, Event.exit 0]
      | _ => [])

/-- The function `main`, from the line after `flag.Parse()`: the two checks of
the terminal, `data.ParseSpec`, the data source, the render task, `dp.Run`.
After a `fatal` in the render task nothing more happens. -/
def main (env : Env) : List Event :=
  if env.termProgram ≠ "iTerm.app" then fatal ["iTerm2 required"]
  else if env.term = "screen" then fatal ["screen and tmux not supported"]
  else
    match env.specErr with
    | some e => fatal ["Cannot parse spec: ", e]
    | none =>
      let r := schedLoop 0 (env.running.map Frame.onTick)
      Event.newSource (selectSource env.url env.interval env.steps) :: Event.goStart ::
        Event.run :: (clear ++ r.1 ++
          match r.2 with
          | Outcome.waiting i => afterRun env i
          | _ => [])

/-- The exit code of the process, when the trace ends with its exit. -/
def exitCode (t : List Event) : Option Nat :=
  match t.getLast? with
  | some (Event.exit c) => some c
  | _ => none

/-! ## Properties of traces -/

/-- An iteration in which `window.Size()` succeeds and the tick is received. -/
def Iter.ticks (it : Iter) : Bool :=
  match it.size, it.sel with
  | SizeResult.ok _ _, Sel.tick => true
  | _, _ => false

/-- One call of `dash.Render` in a trace: the width and height passed, the
result of the latest `window.Size()` call before it, and the receive of the
`select` that lies between that call and the render, if there is one. -/
structure RenderCall where
  width : Int
  height : Int
  query : Option SizeResult
  recv : Option Sel
deriving DecidableEq, Repr

/-- The calls of `dash.Render` in a trace, in order. `query` and `recv` are the
latest size query and the receive after it, before the trace starts. -/
def renderCalls (query : Option SizeResult) (recv : Option Sel) :
    List Event → List RenderCall
  | [] => []
  | e :: t =>
    match e with
    | Event.sizeQuery r => renderCalls (some r) none t
    | Event.recvTick => renderCalls query (some Sel.tick) t
    | Event.recvExit => renderCalls query (some Sel.exit) t
    | Event.dashRender w h => ⟨w, h, query, recv⟩ :: renderCalls query recv t
    | _ => renderCalls query recv t

/-- The render uses the width and height of the latest size query. -/
def RenderCall.usesQuery (c : RenderCall) : Bool :=
  c.query == some (SizeResult.ok c.width c.height)

/-- The size query the render uses was made after the tick fired: no tick was
received between the query and the render. -/
def RenderCall.queriedAfterTick (c : RenderCall) : Bool :=
  c.usesQuery && c.recv != some Sel.tick

/-- The size query the render uses was made before the `select` received: the
receive lies between the query and the render. -/
def RenderCall.queriedBeforeSelect (c : RenderCall) : Bool :=
  c.usesQuery && c.recv != none

/-- Is `p` a contiguous part of `s`? -/
def hasInfix (p : List Char) : List Char → Bool
  | [] => p.isEmpty
  | c :: s => p.isPrefixOf (c :: s) || hasInfix p s

/-- The text is an inline image as `render` prints it. -/
def isImage (s : String) : Bool := imagePrefix.data.isPrefixOf s.data

/-- The text holds the sequence `ESC [ 2 J`, which clears the screen. -/
def clearsScreen (s : String) : Bool := hasInfix "\x1b[2J".data s.data

/-- The text is the sequence `ESC [ 1 ; 1 H`, which puts the cursor at the
top-left. -/
def homesCursor (s : String) : Bool := s == "\x1b[1;1H"

/-- Is every inline image of the trace preceded by a text on which `p` holds,
written after the image before it (after the start of the trace, for the first
image)? `seen` tells whether such a text has been written already. -/
def framesPrecededBy (p : String → Bool) (seen : Bool) : List Event → Bool
  | [] => true
  | e :: t =>
    match e with
    | Event.errOut s => framesPrecededBy p (seen || p s) t
    | Event.stdOut s =>
      if isImage s then seen && framesPrecededBy p false t
      else framesPrecededBy p (seen || p s) t
    | _ => framesPrecededBy p seen t

/-- The event is the housekeeping signal: the text `cleanup()` writes, which
clears the scrollback of the terminal. -/
def isCleanup (e : Event) : Bool :=
  e == Event.errOut "\x1b]1337;ClearScrollback\x07"

/-- The event is a call of `dash.Render`: one per call of `render`. -/
def isRenderCall : Event → Bool
  | Event.dashRender _ _ => true
  | _ => false

/-- Is every inline image of the trace free of texts on which `p` holds: none
written before it, after the image before it (after the start of the trace,
for the first image), and the image itself not one? `seen` tells whether such a
text has been written already. -/
def framesWithout (p : String → Bool) (seen : Bool) : List Event → Bool
  | [] => true
  | e :: t =>
    match e with
    | Event.errOut s => framesWithout p (seen || p s) t
    | Event.stdOut s =>
      if isImage s then !seen && !p s && framesWithout p false t
      else framesWithout p (seen || p s) t
    | _ => framesWithout p seen t

/-- The trace ends with a fatal error: one line on standard output that starts
with `jplot: ` and goes on, after the space `fmt.Println` puts between its
operands, with the description `desc`, then `os.Exit(1)`. -/
def endsFatal (t : List Event) (desc : String) : Prop :=
  ∃ pre, t = pre ++ [Event.stdOut ("jplot: " ++ " " ++ desc ++ "\n"), Event.exit 1]

/-- The encoder `e` has taken the bytes `xs`: all of them but the pending group,
a whole number of groups of 3, are encoded in the buffer. -/
def Encoder.holds (e : Encoder) (xs : List Nat) : Prop :=
  ∃ full, xs = full ++ e.buf ∧ full.length % 3 = 0 ∧ e.out = encode full ∧
    e.buf.length < 3

/-! ## Sample inputs -/

/-- A PNG image of 1 x 1 pixel, 67 bytes, written the way a PNG encoder does:
the signature, then for each chunk (IHDR, IDAT, IEND) its header, its data and
its checksum. -/
def drawPng : Int → Int → List (List Nat) := fun _ _ =>
  [[137, 80, 78, 71, 13, 10, 26, 10],
    [0, 0, 0, 13, 73, 72, 68, 82], [0, 0, 0, 1, 0, 0, 0, 1, 8, 0, 0, 0, 0],
    [58, 126, 155, 85],
    [0, 0, 0, 10, 73, 68, 65, 84], [120, 218, 99, 248, 15, 0, 1, 1, 1, 0],
    [28, 176, 140, 153],
    [0, 0, 0, 0, 73, 69, 78, 68], [174, 66, 96, 130]]

/-- The complete padded base64 encoding of the image of `drawPng`. -/
def pngEncoded : String :=
  "iVBORw0KGgoAAAANSUhEUgAAAAEAAAABCAAAAAA6fptVAAAACklEQVR42mP4DwABAQEAHLCMmQAAAABJRU5ErkJggg=="

/-- The base64 encoding of the first 66 bytes of the image of `drawPng`. -/
def pngPrinted : String :=
  "iVBORw0KGgoAAAANSUhEUgAAAAEAAAABCAAAAAA6fptVAAAACklEQVR42mP4DwABAQEAHLCMmQAAAABJRU5ErkJg"

/-- The text `render` prints for the image of `drawPng`. -/
def pngFrame : String := imagePrefix ++ pngPrinted ++ imageSuffix

/-- An iteration in an 80 x 24 window in which the tick fires. -/
def tickIter : Iter := ⟨SizeResult.ok 80 24, Sel.tick, drawPng⟩

/-- An iteration in a 100 x 30 window in which the tick fires. -/
def tickIterWide : Iter := ⟨SizeResult.ok 100 30, Sel.tick, drawPng⟩

/-- An iteration in an 80 x 24 window in which `exit` is received. -/
def exitIter : Iter := ⟨SizeResult.ok 80 24, Sel.exit, drawPng⟩

/-- An iteration in which the size query fails. -/
def lostIter : Iter := ⟨SizeResult.err "not a terminal", Sel.exit, drawPng⟩

/-- An iteration before `dp.Run` returns, in an 80 x 24 window. -/
def okFrame : Frame := ⟨SizeResult.ok 80 24, drawPng⟩

/-- Stream mode in iTerm2: two ticks, then standard input ends and the render
task receives `exit`. -/
def envStreamEnd : Env :=
  ⟨"iTerm.app", "xterm-256color", "", 1000000000, 100, none, [okFrame, okFrame], none,
    [exitIter]⟩

/-- Stream mode in iTerm2: standard input ends at once, and the size query of the
render task fails. -/
def envSizeLost : Env :=
  ⟨"iTerm.app", "xterm-256color", "", 1000000000, 100, none, [], none, [lostIter]⟩

/-- Poll mode in iTerm2 under `screen`. -/
def envScreen : Env :=
  ⟨"iTerm.app", "screen", "http://localhost:8080/debug/vars", 1000000000, 100, none,
    [], none, []⟩

/-- Poll mode in iTerm2: one tick, then `dp.Run` returns an error. -/
def envRunFails : Env :=
  ⟨"iTerm.app", "xterm-256color", "http://localhost:8080/debug/vars", 1000000000, 100,
    none, [okFrame], some "connection refused", []⟩

/-! ## The scheduler loop, iteration by iteration -/

theorem schedLoop_nil (i : Nat) : schedLoop i [] = ([], Outcome.waiting i) := rfl

theorem schedLoop_err (i : Nat) (it : Iter) (rest : List Iter) (e : String)
    (hsize : it.size = SizeResult.err e) :
    schedLoop i (it :: rest) =
      (Event.sizeQuery (SizeResult.err e) :: fatal ["Cannot get window size: ", e],
        Outcome.exited) := by
  simp [schedLoop, hsize]

theorem schedLoop_tick (i : Nat) (it : Iter) (rest : List Iter) (w h : Int)
    (hsize : it.size = SizeResult.ok w h) (hsel : it.sel = Sel.tick) :
    schedLoop i (it :: rest) =
      (Event.sizeQuery (SizeResult.ok w h) :: Event.recvTick ::
        ((if (i + 1) % 120 = 0 then cleanup else []) ++ render it.draw w h ++
          (schedLoop (i + 1) rest).1), (schedLoop (i + 1) rest).2) := by
  simp [schedLoop, hsize, hsel]

theorem schedLoop_exit (i : Nat) (it : Iter) (rest : List Iter) (w h : Int)
    (hsize : it.size = SizeResult.ok w h) (hsel : it.sel = Sel.exit) :
    schedLoop i (it :: rest) =
      (Event.sizeQuery (SizeResult.ok w h) :: Event.recvExit ::
        (render it.draw w h ++ [Event.tickerStop, Event.wgDone]), Outcome.returned) := by
  simp [schedLoop, hsize, hsel]

theorem ticks_iff (it : Iter) :
    it.ticks = true ↔ (∃ w h, it.size = SizeResult.ok w h) ∧ it.sel = Sel.tick := by
  unfold Iter.ticks
  cases hs : it.size <;> cases hl : it.sel <;> simp

/-- After a run of ticks with successful size queries the loop goes on with the
counter advanced by their number. -/
theorem schedLoop_append (pre : List Iter) (hpre : pre.all Iter.ticks = true)
    (i : Nat) (rest : List Iter) :
    schedLoop i (pre ++ rest) =
      ((schedLoop i pre).1 ++ (schedLoop (i + pre.length) rest).1,
        (schedLoop (i + pre.length) rest).2) := by
  induction pre generalizing i with
  | nil => simp [schedLoop_nil]
  | cons it pre ih =>
    simp only [List.all_cons, Bool.and_eq_true] at hpre
    obtain ⟨⟨w, h, hsize⟩, hsel⟩ := (ticks_iff it).1 hpre.1
    have e : i + (it :: pre).length = i + 1 + pre.length := by
      simp only [List.length_cons]; omega
    rw [List.cons_append, schedLoop_tick i it _ w h hsize hsel,
      schedLoop_tick i it _ w h hsize hsel, ih hpre.2, e]
    simp

/-- A run of ticks with successful size queries leaves the loop waiting. -/
theorem schedLoop_ticks_outcome (pre : List Iter) (hpre : pre.all Iter.ticks = true)
    (i : Nat) : (schedLoop i pre).2 = Outcome.waiting (i + pre.length) := by
  have h := schedLoop_append pre hpre i []
  simp only [List.append_nil, schedLoop_nil] at h
  rw [h]

/-- After a run of ticks, an iteration that receives `exit` ends the loop. -/
theorem schedLoop_append_exit (i : Nat) (pre : List Iter) (it : Iter) (rest : List Iter)
    (w h : Int) (hpre : pre.all Iter.ticks = true)
    (hsize : it.size = SizeResult.ok w h) (hsel : it.sel = Sel.exit) :
    schedLoop i (pre ++ it :: rest) =
      ((schedLoop i pre).1 ++ Event.sizeQuery (SizeResult.ok w h) :: Event.recvExit ::
        (render it.draw w h ++ [Event.tickerStop, Event.wgDone]), Outcome.returned) := by
  rw [schedLoop_append pre hpre i, schedLoop_exit _ it rest w h hsize hsel]

/-! ## The claims -/

/-- In a run of ticks entered with counter `i`, the housekeeping signal is
written once for every multiple of 120 the counter reaches, and `dash.Render`
is called once per tick. -/
theorem count_ticks (pre : List Iter) (hpre : pre.all Iter.ticks = true) (i : Nat) :
    (schedLoop i pre).1.countP isCleanup + i / 120 = (i + pre.length) / 120 ∧
      (schedLoop i pre).1.countP isRenderCall = pre.length := by
  induction pre generalizing i with
  | nil => simp [schedLoop_nil]
  | cons it pre ih =>
    simp only [List.all_cons, Bool.and_eq_true] at hpre
    obtain ⟨⟨w, h, hsize⟩, hsel⟩ := (ticks_iff it).1 hpre.1
    obtain ⟨ih1, ih2⟩ := ih hpre.2 (i + 1)
    rw [schedLoop_tick i it _ w h hsize hsel]
    have hq : isCleanup (Event.sizeQuery (SizeResult.ok w h)) = false := rfl
    have ht : isCleanup Event.recvTick = false := rfl
    have hd : isCleanup (Event.dashRender w h) = false := rfl
    have hr : isCleanup (Event.errOut "\x1b[1;1H") = false := by decide
    have hc : isCleanup (Event.errOut "\x1b]1337;ClearScrollback\x07") = true := by decide
    have hs : ∀ s, isCleanup (Event.stdOut s) = false := fun _ => rfl
    have hr2 : ∀ s, isRenderCall (Event.errOut s) = false := fun _ => rfl
    have hs2 : ∀ s, isRenderCall (Event.stdOut s) = false := fun _ => rfl
    have hlen : i + (it :: pre).length = i + 1 + pre.length := by
      simp only [List.length_cons]; omega
    rw [hlen]
    by_cases h120 : (i + 1) % 120 = 0
    · simp only [h120, if_true, cleanup, render, reset, List.cons_append, List.nil_append,
        List.countP_cons, List.countP_append, List.countP_nil, hq, ht, hd, hr, hc, hs,
        hr2, hs2, isRenderCall, List.length_cons]
      constructor
      · simp only [Bool.false_eq_true, if_false, if_true]
        omega
      · simp only [Bool.false_eq_true, if_false, if_true]
        omega
    · simp only [h120, if_false, render, reset, List.cons_append, List.nil_append,
        List.countP_cons, List.countP_append, List.countP_nil, hq, ht, hd, hr, hs,
        hr2, hs2, isRenderCall, List.length_cons]
      constructor
      · simp only [Bool.false_eq_true, if_false, if_true]
        omega
      · simp only [Bool.false_eq_true, if_false, if_true]
        omega

/-- C2: in the scheduler loop started with `i := 0`, the n-th tick
(n = `pre.length + 1`, after n - 1 earlier ticks) writes the housekeeping
signal `ESC ] 1337 ; ClearScrollback BEL` of `cleanup()` exactly when n is
divisible by 120, then performs one `render` (one call of `dash.Render`, the
cursor sequence, the image), the cleanup coming first; the loop then goes on
with counter n. Over the first n ticks the signal is written n / 120 times and
`dash.Render` is called n times. -/
theorem tick_cleanup_iff_divisible (pre : List Iter) (it : Iter) (rest : List Iter)
    (w h : Int) (hpre : pre.all Iter.ticks = true)
    (hsize : it.size = SizeResult.ok w h) (hsel : it.sel = Sel.tick) :
    schedLoop 0 (pre ++ it :: rest) =
        ((schedLoop 0 pre).1 ++ Event.sizeQuery (SizeResult.ok w h) :: Event.recvTick ::
          ((if (pre.length + 1) % 120 = 0
              then [Event.errOut "\x1b]1337;ClearScrollback\x07"] else []) ++
            Event.dashRender w h :: Event.errOut "\x1b[1;1H" ::
              Event.stdOut (imagePrefix ++ String.mk (payload (it.draw w h)) ++
                imageSuffix) ::
              (schedLoop (pre.length + 1) rest).1), (schedLoop (pre.length + 1) rest).2) ∧
      (schedLoop 0 (pre ++ [it])).1.countP isCleanup = (pre.length + 1) / 120 ∧
      (schedLoop 0 (pre ++ [it])).1.countP isRenderCall = pre.length + 1 ∧
      isCleanup (Event.errOut "\x1b]1337;ClearScrollback\x07") = true := by
  have hall : (pre ++ [it]).all Iter.ticks = true := by
    simp only [List.all_append, List.all_cons, List.all_nil, Bool.and_true,
      Bool.and_eq_true]
    exact ⟨hpre, (ticks_iff it).2 ⟨⟨w, h, hsize⟩, hsel⟩⟩
  obtain ⟨c1, c2⟩ := count_ticks (pre ++ [it]) hall 0
  refine ⟨?_, ?_, ?_, by decide⟩
  · rw [schedLoop_append pre hpre 0, Nat.zero_add, schedLoop_tick _ it rest w h hsize hsel]
    by_cases hd : (pre.length + 1) % 120 = 0 <;> simp [hd, cleanup, render, reset]
  · simpa using c1
  · simpa using c2

theorem tick_cleanup_iff_divisible_witness :
    (List.replicate 119 tickIter).all Iter.ticks = true ∧
      tickIterWide.size = SizeResult.ok 100 30 ∧ tickIterWide.sel = Sel.tick ∧
      schedLoop 0 (List.replicate 119 tickIter ++ tickIterWide :: [tickIter]) =
        ((schedLoop 0 (List.replicate 119 tickIter)).1 ++
          Event.sizeQuery (SizeResult.ok 100 30) :: Event.recvTick ::
            Event.errOut "\x1b]1337;ClearScrollback\x07" ::
            Event.dashRender 100 30 :: Event.errOut "\x1b[1;1H" ::
              Event.stdOut (imagePrefix ++ String.mk (payload (drawPng 100 30)) ++
                imageSuffix) ::
              (schedLoop 120 [tickIter]).1, Outcome.waiting 121) ∧
      (schedLoop 0 (List.replicate 119 tickIter ++ [tickIterWide])).1.countP isCleanup = 1 ∧
      (schedLoop 0 (List.replicate 119 tickIter ++ [tickIterWide])).1.countP isRenderCall =
        120 ∧
      (schedLoop 120 [tickIter]).1 =
        [Event.sizeQuery (SizeResult.ok 80 24), Event.recvTick, Event.dashRender 80 24,
          Event.errOut "\x1b[1;1H", Event.stdOut pngFrame] := by
  have h := tick_cleanup_iff_divisible (List.replicate 119 tickIter) tickIterWide
    ([tickIter]) 100 30 (by decide) rfl rfl
  simp only [List.length_replicate, Nat.reduceAdd, Nat.reduceMod, Nat.reduceDiv, if_true,
    List.singleton_append] at h
  exact ⟨by decide, rfl, rfl, h.1, h.2.1, h.2.2.1, by decide⟩

/-- C3: when the `select` receives from `exit`, whatever the counter `i` and the
number of ticks before, the loop performs one `render` and returns (the
deferred `t.Stop()` and `wg.Done()` run): nothing else follows, and nothing
supplied for later iterations is used. -/
theorem exit_one_final_render (i : Nat) (pre : List Iter) (it : Iter) (rest : List Iter)
    (w h : Int) (hpre : pre.all Iter.ticks = true)
    (hsize : it.size = SizeResult.ok w h) (hsel : it.sel = Sel.exit) :
    schedLoop i (pre ++ it :: rest) =
      ((schedLoop i pre).1 ++ Event.sizeQuery (SizeResult.ok w h) :: Event.recvExit ::
        (render it.draw w h ++ [Event.tickerStop, Event.wgDone]), Outcome.returned) :=
  schedLoop_append_exit i pre it rest w h hpre hsize hsel

theorem exit_one_final_render_witness :
    [tickIter, tickIterWide].all Iter.ticks = true ∧
      schedLoop 118 ([tickIter, tickIterWide] ++ exitIter :: [tickIter, lostIter]) =
        ((schedLoop 118 [tickIter, tickIterWide]).1 ++
          Event.sizeQuery (SizeResult.ok 80 24) :: Event.recvExit ::
            (render exitIter.draw 80 24 ++ [Event.tickerStop, Event.wgDone]),
          Outcome.returned) :=
  ⟨by decide,
    exit_one_final_render 118 [tickIter, tickIterWide] exitIter [tickIter, lostIter] 80 24
      (by decide) rfl rfl⟩

/-- C6: when `window.Size()` fails in an iteration of the loop, the trace of
the loop ends with the failed query, the line of `fatal` and `os.Exit(1)`: no
render and no cleanup follows. -/
theorem size_error_is_fatal (i : Nat) (pre : List Iter) (it : Iter) (rest : List Iter)
    (e : String) (hpre : pre.all Iter.ticks = true)
    (hsize : it.size = SizeResult.err e) :
    schedLoop i (pre ++ it :: rest) =
      ((schedLoop i pre).1 ++ [Event.sizeQuery (SizeResult.err e),
        Event.stdOut ("jplot: " ++ " " ++ ("Cannot get window size: " ++ " " ++ e) ++ "\n"),
        Event.exit 1], Outcome.exited) := by
  rw [schedLoop_append pre hpre i, schedLoop_err _ it rest e hsize]
  rfl

theorem size_error_is_fatal_witness :
    [tickIter].all Iter.ticks = true ∧
      schedLoop 0 ([tickIter] ++ lostIter :: [tickIter, exitIter]) =
        ((schedLoop 0 [tickIter]).1 ++ [Event.sizeQuery (SizeResult.err "not a terminal"),
          Event.stdOut ("jplot: " ++ " " ++ ("Cannot get window size: " ++ " " ++
            "not a terminal") ++ "\n"),
          Event.exit 1], Outcome.exited) :=
  ⟨by decide,
    size_error_is_fatal 0 [tickIter] lostIter [tickIter, exitIter] "not a terminal"
      (by decide) rfl⟩

/-! ## `main` behind the start-up gate -/

theorem main_started (env : Env) (h1 : env.termProgram = "iTerm.app")
    (h2 : env.term ≠ "screen") (h3 : env.specErr = none) :
    main env =
      Event.newSource (selectSource env.url env.interval env.steps) :: Event.goStart ::
        Event.run :: (clear ++ (schedLoop 0 (env.running.map Frame.onTick)).1 ++
          match (schedLoop 0 (env.running.map Frame.onTick)).2 with
          | Outcome.waiting i => afterRun env i
          | _ => []) := by
  simp [main, h1, h2, h3]

theorem main_running (env : Env) (h1 : env.termProgram = "iTerm.app")
    (h2 : env.term ≠ "screen") (h3 : env.specErr = none)
    (hrun : (env.running.map Frame.onTick).all Iter.ticks = true) :
    main env =
      Event.newSource (selectSource env.url env.interval env.steps) :: Event.goStart ::
        Event.run :: (clear ++ (schedLoop 0 (env.running.map Frame.onTick)).1 ++
          afterRun env env.running.length) := by
  rw [main_started env h1 h2 h3, schedLoop_ticks_outcome _ hrun]
  simp

theorem exitCode_snoc (t : List Event) (c : Nat) :
    exitCode (t ++ [Event.exit c]) = some c := by
  simp [exitCode]

theorem exitCode_of_eq (t pre : List Event) (c : Nat) (h : t = pre ++ [Event.exit c]) :
    exitCode t = some c := by
  rw [h, exitCode_snoc]

theorem exitCode_endsFatal (t : List Event) (desc : String) (h : endsFatal t desc) :
    exitCode t = some 1 := by
  obtain ⟨pre, hpre⟩ := h
  exact exitCode_of_eq t (pre ++ [Event.stdOut ("jplot: " ++ " " ++ desc ++ "\n")]) 1
    (by rw [hpre]; simp)

theorem exit_not_mem_render (draw : Int → Int → List (List Nat)) (w h : Int) (c : Nat) :
    Event.exit c ∉ render draw w h := by
  simp [render, reset]

theorem exit_not_mem_ticks (pre : List Iter) (hpre : pre.all Iter.ticks = true)
    (i c : Nat) : Event.exit c ∉ (schedLoop i pre).1 := by
  induction pre generalizing i with
  | nil => simp [schedLoop_nil]
  | cons it pre ih =>
    simp only [List.all_cons, Bool.and_eq_true] at hpre
    obtain ⟨⟨w, h, hsize⟩, hsel⟩ := (ticks_iff it).1 hpre.1
    rw [schedLoop_tick i it _ w h hsize hsel]
    have h1 := ih hpre.2 (i + 1)
    have h2 := exit_not_mem_render it.draw w h c
    by_cases hc : (i + 1) % 120 = 0 <;> simp [hc, cleanup, h1, h2]

/-- C4, as stated, fails: standard input ends at once, `dp.Run` returns nil and
`main` runs `close(exit)`; the size query of the render task fails, so the
process prints the fatal line and exits with code 1, and `dp.Close()` never
runs. -/
theorem stream_end_fatal_size :
    envSizeLost.termProgram = "iTerm.app" ∧ envSizeLost.term ≠ "screen" ∧
      envSizeLost.specErr = none ∧
      main envSizeLost =
        [Event.newSource (Source.fromStdin 100), Event.goStart, Event.run,
          Event.errOut "\x1b[H\x1b[2J", Event.errOut "\x1b]1337;CursorShape=1\x07",
          Event.runReturn none, Event.closeExit,
          Event.sizeQuery (SizeResult.err "not a terminal"),
          Event.stdOut "jplot:  Cannot get window size:  not a terminal\n",
          Event.exit 1] ∧
      exitCode (main envSizeLost) = some 1 ∧
      Event.dpClose ∉ main envSizeLost := by
  decide

/-- The render task never performs the deferred calls of `main`. -/
theorem deferred_not_mem_schedLoop (e : Event) (he : e = Event.dpClose ∨ e = Event.wgWait)
    (iters : List Iter) (i : Nat) : e ∉ (schedLoop i iters).1 := by
  induction iters generalizing i with
  | nil => simp [schedLoop_nil]
  | cons it rest ih =>
    cases hsize : it.size with
    | err msg =>
      rcases he with he | he <;> simp [schedLoop_err i it rest msg hsize, fatal, he]
    | ok w h =>
      cases hsel : it.sel with
      | tick =>
        rw [schedLoop_tick i it rest w h hsize hsel]
        have h1 := ih (i + 1)
        by_cases hc : (i + 1) % 120 = 0 <;> rcases he with he | he <;>
          simp [hc, cleanup, render, reset, he] <;> simpa [he] using h1
      | exit =>
        rw [schedLoop_exit i it rest w h hsize hsel]
        rcases he with he | he <;> simp [render, reset, he]

/-- C4, amended: `dp.Run` has returned nil, and the size queries of the render
task succeed up to an iteration `it` that comes after the deferred
`close(exit)`. If the size query of `it` succeeds and its `select` receives
`exit`, the render task performs its final render and calls `wg.Done()`, then
`wg.Wait()` returns, `dp.Close()` runs and the process ends with code 0,
`fatal` not being called. If the size query of `it` fails, the render task calls
`fatal`: the process prints the fatal line and exits with code 1, `wg.Wait()`
does not return and `dp.Close()` does not run. -/
theorem stream_end_final_render (env : Env) (pre : List Iter) (it : Iter)
    (rest : List Iter)
    (h1 : env.termProgram = "iTerm.app") (h2 : env.term ≠ "screen")
    (h3 : env.specErr = none)
    (hrun : (env.running.map Frame.onTick).all Iter.ticks = true)
    (herr : env.runErr = none) (hclosing : env.closing = pre ++ it :: rest)
    (hpre : pre.all Iter.ticks = true) :
    (∀ w h, it.size = SizeResult.ok w h → it.sel = Sel.exit →
      main env =
          Event.newSource (selectSource env.url env.interval env.steps) ::
            Event.goStart :: Event.run ::
              (clear ++ (schedLoop 0 (env.running.map Frame.onTick)).1 ++
                Event.runReturn none :: Event.closeExit ::
                  ((schedLoop env.running.length pre).1 ++
                    Event.sizeQuery (SizeResult.ok w h) :: Event.recvExit ::
                      (render it.draw w h ++
                        [Event.tickerStop, Event.wgDone, Event.wgWait, Event.dpClose,
                          Event.exit 0]))) ∧
        exitCode (main env) = some 0 ∧ Event.exit 1 ∉ main env) ∧
      (∀ e, it.size = SizeResult.err e →
        main env =
            Event.newSource (selectSource env.url env.interval env.steps) ::
              Event.goStart :: Event.run ::
                (clear ++ (schedLoop 0 (env.running.map Frame.onTick)).1 ++
                  Event.runReturn none :: Event.closeExit ::
                    ((schedLoop env.running.length pre).1 ++
                      [Event.sizeQuery (SizeResult.err e),
                        Event.stdOut ("jplot: " ++ " " ++
                          ("Cannot get window size: " ++ " " ++ e) ++ "\n"),
                        Event.exit 1])) ∧
          exitCode (main env) = some 1 ∧ Event.dpClose ∉ main env ∧
          Event.wgWait ∉ main env) := by
  constructor
  · intro w h hsize hsel
    have hloop := schedLoop_append_exit env.running.length pre it rest w h hpre hsize hsel
    have hmain : main env =
        Event.newSource (selectSource env.url env.interval env.steps) :: Event.goStart ::
          Event.run :: (clear ++ (schedLoop 0 (env.running.map Frame.onTick)).1 ++
            Event.runReturn none :: Event.closeExit ::
              ((schedLoop env.running.length pre).1 ++
                Event.sizeQuery (SizeResult.ok w h) :: Event.recvExit ::
                  (render it.draw w h ++
                    [Event.tickerStop, Event.wgDone, Event.wgWait, Event.dpClose,
                      Event.exit 0]))) := by
      rw [main_running env h1 h2 h3 hrun]
      simp [afterRun, herr, hclosing, hloop]
    refine ⟨hmain, ?_, ?_⟩
    · refine exitCode_of_eq _ (Event.newSource (selectSource env.url env.interval env.steps) ::
        Event.goStart :: Event.run :: (clear ++
          (schedLoop 0 (env.running.map Frame.onTick)).1 ++
            Event.runReturn none :: Event.closeExit ::
              ((schedLoop env.running.length pre).1 ++
                Event.sizeQuery (SizeResult.ok w h) :: Event.recvExit ::
                  (render it.draw w h ++
                    [Event.tickerStop, Event.wgDone, Event.wgWait, Event.dpClose])))) 0 ?_
      rw [hmain]
      simp
    · rw [hmain]
      have n1 := exit_not_mem_ticks _ hrun 0 1
      have n2 := exit_not_mem_ticks pre hpre env.running.length 1
      have n3 := exit_not_mem_render it.draw w h 1
      simp [clear, n1, n2, n3]
  · intro e hsize
    have hloop : schedLoop env.running.length env.closing =
        ((schedLoop env.running.length pre).1 ++
          Event.sizeQuery (SizeResult.err e) :: fatal ["Cannot get window size: ", e],
          Outcome.exited) := by
      rw [hclosing, schedLoop_append _ hpre, schedLoop_err _ it _ e hsize]
    have hmain : main env =
        Event.newSource (selectSource env.url env.interval env.steps) :: Event.goStart ::
          Event.run :: (clear ++ (schedLoop 0 (env.running.map Frame.onTick)).1 ++
            Event.runReturn none :: Event.closeExit ::
              ((schedLoop env.running.length pre).1 ++
                [Event.sizeQuery (SizeResult.err e),
                  Event.stdOut ("jplot: " ++ " " ++
                    ("Cannot get window size: " ++ " " ++ e) ++ "\n"),
                  Event.exit 1])) := by
      rw [main_running env h1 h2 h3 hrun]
      have hf : fatal ["Cannot get window size: ", e] =
          [Event.stdOut ("jplot: " ++ " " ++
            ("Cannot get window size: " ++ " " ++ e) ++ "\n"), Event.exit 1] := rfl
      simp only [afterRun, herr, hloop, hf]
      simp
    refine ⟨hmain, ?_, ?_, ?_⟩
    · refine exitCode_of_eq _ (Event.newSource (selectSource env.url env.interval env.steps) ::
        Event.goStart :: Event.run :: (clear ++
          (schedLoop 0 (env.running.map Frame.onTick)).1 ++
            Event.runReturn none :: Event.closeExit ::
              ((schedLoop env.running.length pre).1 ++
                [Event.sizeQuery (SizeResult.err e),
                  Event.stdOut ("jplot: " ++ " " ++
                    ("Cannot get window size: " ++ " " ++ e) ++ "\n")]))) 1 ?_
      rw [hmain]
      simp
    · rw [hmain]
      have n1 := deferred_not_mem_schedLoop Event.dpClose (Or.inl rfl)
        (env.running.map Frame.onTick) 0
      have n2 := deferred_not_mem_schedLoop Event.dpClose (Or.inl rfl) pre
        env.running.length
      simp [clear, n1, n2]
    · rw [hmain]
      have n1 := deferred_not_mem_schedLoop Event.wgWait (Or.inr rfl)
        (env.running.map Frame.onTick) 0
      have n2 := deferred_not_mem_schedLoop Event.wgWait (Or.inr rfl) pre
        env.running.length
      simp [clear, n1, n2]

theorem stream_end_final_render_witness :
    (envStreamEnd.running.map Frame.onTick).all Iter.ticks = true ∧
      envStreamEnd.runErr = none ∧
      exitCode (main envStreamEnd) = some 0 ∧
      Event.exit 1 ∉ main envStreamEnd ∧
      envSizeLost.runErr = none ∧
      exitCode (main envSizeLost) = some 1 ∧
      Event.dpClose ∉ main envSizeLost ∧
      Event.wgWait ∉ main envSizeLost :=
  ⟨by decide, rfl,
    ((stream_end_final_render envStreamEnd [] exitIter [] rfl (by decide) rfl
      (by decide) rfl rfl (by decide)).1 80 24 rfl rfl).2.1,
    ((stream_end_final_render envStreamEnd [] exitIter [] rfl (by decide) rfl
      (by decide) rfl rfl (by decide)).1 80 24 rfl rfl).2.2,
    rfl,
    ((stream_end_final_render envSizeLost [] lostIter [] rfl (by decide) rfl
      (by decide) rfl rfl (by decide)).2 "not a terminal" rfl).2.1,
    ((stream_end_final_render envSizeLost [] lostIter [] rfl (by decide) rfl
      (by decide) rfl rfl (by decide)).2 "not a terminal" rfl).2.2.1,
    ((stream_end_final_render envSizeLost [] lostIter [] rfl (by decide) rfl
      (by decide) rfl rfl (by decide)).2 "not a terminal" rfl).2.2.2⟩

theorem main_not_iterm (env : Env) (h : env.termProgram ≠ "iTerm.app") :
    main env = fatal ["iTerm2 required"] := by
  simp [main, h]

theorem main_screen (env : Env) (h1 : env.termProgram = "iTerm.app")
    (h2 : env.term = "screen") :
    main env = fatal ["screen and tmux not supported"] := by
  simp [main, h1, h2]

theorem main_bad_spec (env : Env) (h1 : env.termProgram = "iTerm.app")
    (h2 : env.term ≠ "screen") (e : String) (h3 : env.specErr = some e) :
    main env = fatal ["Cannot parse spec: ", e] := by
  simp [main, h1, h2, h3]

/-- When the gate is closed, the whole trace is one call of `fatal`. -/
theorem main_gate_closed (env : Env)
    (h : ¬ (env.termProgram = "iTerm.app" ∧ env.term ≠ "screen" ∧ env.specErr = none)) :
    ∃ a, main env = fatal a := by
  by_cases h1 : env.termProgram = "iTerm.app"
  · by_cases h2 : env.term = "screen"
    · exact ⟨_, main_screen env h1 h2⟩
    · cases h3 : env.specErr with
      | none => exact absurd ⟨h1, h2, h3⟩ h
      | some e => exact ⟨_, main_bad_spec env h1 h2 e h3⟩
  · exact ⟨_, main_not_iterm env h1⟩

/-- C5: `main` builds the data source and starts the render task exactly when
`TERM_PROGRAM` is `iTerm.app`, `TERM` is not `screen` and `data.ParseSpec`
returns no error; in every other case all the process does is print one line
through `fatal` and exit with code 1: no data source is built, `dp.Run` is not
called and the render task is not started. -/
theorem startup_gate (env : Env) :
    (((∃ src, Event.newSource src ∈ main env) ∧ Event.goStart ∈ main env) ↔
        (env.termProgram = "iTerm.app" ∧ env.term ≠ "screen" ∧ env.specErr = none)) ∧
      (¬ (env.termProgram = "iTerm.app" ∧ env.term ≠ "screen" ∧ env.specErr = none) →
        (∃ a, main env = [Event.stdOut (sprintln ("jplot: " :: a)), Event.exit 1]) ∧
          exitCode (main env) = some 1 ∧
          (∀ src, Event.newSource src ∉ main env) ∧
          Event.goStart ∉ main env ∧ Event.run ∉ main env) := by
  have closed : ¬ (env.termProgram = "iTerm.app" ∧ env.term ≠ "screen" ∧
      env.specErr = none) →
      (∃ a, main env = [Event.stdOut (sprintln ("jplot: " :: a)), Event.exit 1]) ∧
        exitCode (main env) = some 1 ∧
        (∀ src, Event.newSource src ∉ main env) ∧
        Event.goStart ∉ main env ∧ Event.run ∉ main env := by
    intro h
    obtain ⟨a, ha⟩ := main_gate_closed env h
    rw [ha]
    exact ⟨⟨a, rfl⟩, by simp [fatal, exitCode], by simp [fatal], by simp [fatal],
      by simp [fatal]⟩
  refine ⟨⟨?_, ?_⟩, closed⟩
  · intro hreach
    by_contra h
    exact (closed h).2.2.2.1 hreach.2
  · rintro ⟨h1, h2, h3⟩
    rw [main_started env h1 h2 h3]
    exact ⟨⟨_, List.mem_cons_self _ _⟩, by simp⟩

theorem startup_gate_witness :
    ¬ (envScreen.termProgram = "iTerm.app" ∧ envScreen.term ≠ "screen" ∧
        envScreen.specErr = none) ∧
      exitCode (main envScreen) = some 1 ∧ Event.goStart ∉ main envScreen ∧
      Event.goStart ∈ main envStreamEnd :=
  ⟨by decide, ((startup_gate envScreen).2 (by decide)).2.1,
    ((startup_gate envScreen).2 (by decide)).2.2.2.1,
    ((startup_gate envStreamEnd).1.2 (by decide)).2⟩

theorem newSource_not_mem_schedLoop (src : Source) (iters : List Iter) (i : Nat) :
    Event.newSource src ∉ (schedLoop i iters).1 := by
  induction iters generalizing i with
  | nil => simp [schedLoop_nil]
  | cons it rest ih =>
    cases hsize : it.size with
    | err e => simp [schedLoop_err i it rest e hsize, fatal]
    | ok w h =>
      cases hsel : it.sel with
      | tick =>
        rw [schedLoop_tick i it rest w h hsize hsel]
        have h1 := ih (i + 1)
        by_cases hc : (i + 1) % 120 = 0 <;> simp [hc, cleanup, render, reset, h1]
      | exit =>
        rw [schedLoop_exit i it rest w h hsize hsel]
        simp [render, reset]

theorem newSource_not_mem_afterRun (src : Source) (env : Env) (i : Nat) :
    Event.newSource src ∉ afterRun env i := by
  unfold afterRun
  cases herr : env.runErr with
  | some e => simp [fatal]
  | none =>
    have h1 := newSource_not_mem_schedLoop src env.closing i
    cases hout : (schedLoop i env.closing).2 <;> simp [h1, hout]

/-- C7: behind the start-up gate the first thing `main` does is build the data
source; it is `data.FromStdin(steps)` exactly when the `url` flag is empty, and
`data.FromHTTP(url, interval, steps)` with the given flags otherwise. -/
theorem source_selection (env : Env) (h1 : env.termProgram = "iTerm.app")
    (h2 : env.term ≠ "screen") (h3 : env.specErr = none) :
    (∃ rest, main env =
        Event.newSource (selectSource env.url env.interval env.steps) :: rest ∧
        ∀ src, Event.newSource src ∉ rest) ∧
      (selectSource env.url env.interval env.steps = Source.fromStdin env.steps ↔
        env.url = "") ∧
      (env.url ≠ "" →
        selectSource env.url env.interval env.steps =
          Source.fromHTTP env.url env.interval env.steps) := by
  refine ⟨⟨_, main_started env h1 h2 h3, ?_⟩, ?_, ?_⟩
  · intro src
    have n1 := newSource_not_mem_schedLoop src (env.running.map Frame.onTick) 0
    have n2 : ∀ i, Event.newSource src ∉ afterRun env i :=
      newSource_not_mem_afterRun src env
    cases hout : (schedLoop 0 (env.running.map Frame.onTick)).2 <;>
      simp [clear, n1, n2, hout]
  · unfold selectSource
    by_cases hu : env.url = "" <;> simp [hu]
  · intro hu
    simp [selectSource, hu]

theorem source_selection_witness :
    envRunFails.termProgram = "iTerm.app" ∧ envRunFails.term ≠ "screen" ∧
      envRunFails.specErr = none ∧
      selectSource envRunFails.url envRunFails.interval envRunFails.steps =
        Source.fromHTTP "http://localhost:8080/debug/vars" 1000000000 100 ∧
      (selectSource envStreamEnd.url envStreamEnd.interval envStreamEnd.steps =
        Source.fromStdin envStreamEnd.steps ↔ envStreamEnd.url = "") :=
  ⟨rfl, by decide, rfl,
    (source_selection envRunFails rfl (by decide) rfl).2.2 (by decide),
    (source_selection envStreamEnd rfl (by decide) rfl).2.1⟩

/-! ## Fatal errors -/

theorem endsFatal_append (pre : List Event) (a : List String) (desc : String)
    (h : sprint ("jplot: " :: a) = "jplot: " ++ " " ++ desc) :
    endsFatal (pre ++ fatal a) desc := by
  refine ⟨pre, ?_⟩
  simp [fatal, sprintln, h]

theorem endsFatal_fatal (a : List String) (desc : String)
    (h : sprint ("jplot: " :: a) = "jplot: " ++ " " ++ desc) :
    endsFatal (fatal a) desc := by
  have := endsFatal_append [] a desc h
  simpa using this

theorem main_running_fails (env : Env) (h1 : env.termProgram = "iTerm.app")
    (h2 : env.term ≠ "screen") (h3 : env.specErr = none)
    (pre : List Frame) (f : Frame) (rest : List Frame) (e : String)
    (hr : env.running = pre ++ f :: rest)
    (hpre : (pre.map Frame.onTick).all Iter.ticks = true)
    (hf : f.size = SizeResult.err e) :
    main env =
      Event.newSource (selectSource env.url env.interval env.steps) :: Event.goStart ::
        Event.run :: (clear ++ (schedLoop 0 (pre.map Frame.onTick)).1 ++
          Event.sizeQuery (SizeResult.err e) :: fatal ["Cannot get window size: ", e]) := by
  have hloop : schedLoop 0 (env.running.map Frame.onTick) =
      ((schedLoop 0 (pre.map Frame.onTick)).1 ++
        Event.sizeQuery (SizeResult.err e) :: fatal ["Cannot get window size: ", e],
        Outcome.exited) := by
    rw [hr, List.map_append, List.map_cons, schedLoop_append _ hpre 0,
      schedLoop_err _ f.onTick _ e hf]
  rw [main_started env h1 h2 h3, hloop]
  simp

theorem main_closing_fails (env : Env) (h1 : env.termProgram = "iTerm.app")
    (h2 : env.term ≠ "screen") (h3 : env.specErr = none)
    (hrun : (env.running.map Frame.onTick).all Iter.ticks = true)
    (herr : env.runErr = none)
    (pre : List Iter) (it : Iter) (rest : List Iter) (e : String)
    (hc : env.closing = pre ++ it :: rest) (hpre : pre.all Iter.ticks = true)
    (hsize : it.size = SizeResult.err e) :
    main env =
      Event.newSource (selectSource env.url env.interval env.steps) :: Event.goStart ::
        Event.run :: (clear ++ (schedLoop 0 (env.running.map Frame.onTick)).1 ++
          Event.runReturn none :: Event.closeExit ::
            ((schedLoop env.running.length pre).1 ++
              Event.sizeQuery (SizeResult.err e) ::
                fatal ["Cannot get window size: ", e])) := by
  have hloop : schedLoop env.running.length env.closing =
      ((schedLoop env.running.length pre).1 ++
        Event.sizeQuery (SizeResult.err e) :: fatal ["Cannot get window size: ", e],
        Outcome.exited) := by
    rw [hc, schedLoop_append _ hpre, schedLoop_err _ it _ e hsize]
  rw [main_running env h1 h2 h3 hrun]
  simp [afterRun, herr, hloop]

theorem main_run_fails (env : Env) (h1 : env.termProgram = "iTerm.app")
    (h2 : env.term ≠ "screen") (h3 : env.specErr = none)
    (hrun : (env.running.map Frame.onTick).all Iter.ticks = true)
    (e : String) (herr : env.runErr = some e) :
    main env =
      Event.newSource (selectSource env.url env.interval env.steps) :: Event.goStart ::
        Event.run :: (clear ++ (schedLoop 0 (env.running.map Frame.onTick)).1 ++
          Event.runReturn (some e) :: fatal ["Data source error: ", e]) := by
  rw [main_running env h1 h2 h3 hrun]
  simp [afterRun, herr]

/-- Iterations before `dp.Run` returns: either every size query succeeds, or
there is a first one that fails. -/
theorem frames_ok_or_fail (fs : List Frame) :
    (fs.map Frame.onTick).all Iter.ticks = true ∨
      ∃ pre f rest e, fs = pre ++ f :: rest ∧
        (pre.map Frame.onTick).all Iter.ticks = true ∧ f.size = SizeResult.err e := by
  induction fs with
  | nil => left; rfl
  | cons f fs ih =>
    cases hf : f.size with
    | err e => exact Or.inr ⟨[], f, fs, e, rfl, rfl, hf⟩
    | ok w h =>
      have hft : f.onTick.ticks = true := by simp [Frame.onTick, Iter.ticks, hf]
      rcases ih with hall | ⟨pre, g, rest, e, hfs, hpre, hg⟩
      · left
        simp only [List.map_cons, List.all_cons, hft, hall, Bool.and_self]
      · right
        refine ⟨f :: pre, g, rest, e, by rw [hfs]; rfl, ?_, hg⟩
        simp only [List.map_cons, List.all_cons, hft, hpre, Bool.and_self]

/-- C8: `fatal` prints one line that starts with `jplot: ` and exits with code
1; at each of its four call sites (terminal not iTerm2 or under screen, spec not
parsed, size query failed, `dp.Run` returned an error) the trace of the process
ends with that line, carrying the description of the error, and `os.Exit(1)`;
an error returned by `dp.Run` leads to exit code 1 in every run. -/
theorem fatal_line_exit_one (env : Env) :
    (∀ a, ∃ text, fatal a = [Event.stdOut ("jplot: " ++ text ++ "\n"), Event.exit 1]) ∧
      (env.termProgram ≠ "iTerm.app" → endsFatal (main env) "iTerm2 required") ∧
      (env.termProgram = "iTerm.app" → env.term = "screen" →
        endsFatal (main env) "screen and tmux not supported") ∧
      (∀ e, env.termProgram = "iTerm.app" → env.term ≠ "screen" →
        env.specErr = some e →
        endsFatal (main env) ("Cannot parse spec: " ++ " " ++ e)) ∧
      (∀ e pre f rest, env.termProgram = "iTerm.app" → env.term ≠ "screen" →
        env.specErr = none → env.running = pre ++ f :: rest →
        (pre.map Frame.onTick).all Iter.ticks = true → f.size = SizeResult.err e →
        endsFatal (main env) ("Cannot get window size: " ++ " " ++ e)) ∧
      (∀ e pre it rest, env.termProgram = "iTerm.app" → env.term ≠ "screen" →
        env.specErr = none → (env.running.map Frame.onTick).all Iter.ticks = true →
        env.runErr = none → env.closing = pre ++ it :: rest →
        pre.all Iter.ticks = true → it.size = SizeResult.err e →
        endsFatal (main env) ("Cannot get window size: " ++ " " ++ e)) ∧
      (∀ e, env.termProgram = "iTerm.app" → env.term ≠ "screen" →
        env.specErr = none → (env.running.map Frame.onTick).all Iter.ticks = true →
        env.runErr = some e →
        endsFatal (main env) ("Data source error: " ++ " " ++ e)) ∧
      (∀ e, env.termProgram = "iTerm.app" → env.term ≠ "screen" →
        env.specErr = none → env.runErr = some e →
        exitCode (main env) = some 1) := by
  have site4 : ∀ e pre f rest, env.termProgram = "iTerm.app" → env.term ≠ "screen" →
      env.specErr = none → env.running = pre ++ f :: rest →
      (pre.map Frame.onTick).all Iter.ticks = true → f.size = SizeResult.err e →
      endsFatal (main env) ("Cannot get window size: " ++ " " ++ e) := by
    intro e pre f rest h1 h2 h3 hr hpre hf
    rw [main_running_fails env h1 h2 h3 pre f rest e hr hpre hf]
    exact endsFatal_append
      (Event.newSource (selectSource env.url env.interval env.steps) :: Event.goStart ::
        Event.run :: (clear ++ (schedLoop 0 (pre.map Frame.onTick)).1 ++
          [Event.sizeQuery (SizeResult.err e)])) _ _ rfl |> (by simpa using ·)
  have site6 : ∀ e, env.termProgram = "iTerm.app" → env.term ≠ "screen" →
      env.specErr = none → (env.running.map Frame.onTick).all Iter.ticks = true →
      env.runErr = some e →
      endsFatal (main env) ("Data source error: " ++ " " ++ e) := by
    intro e h1 h2 h3 hrun herr
    rw [main_run_fails env h1 h2 h3 hrun e herr]
    exact endsFatal_append
      (Event.newSource (selectSource env.url env.interval env.steps) :: Event.goStart ::
        Event.run :: (clear ++ (schedLoop 0 (env.running.map Frame.onTick)).1 ++
          [Event.runReturn (some e)])) _ _ rfl |> (by simpa using ·)
  refine ⟨?_, ?_, ?_, ?_, site4, ?_, site6, ?_⟩
  · intro a
    cases a with
    | nil => exact ⟨"", rfl⟩
    | cons x rest =>
      exact ⟨" " ++ sprint (x :: rest),
        by simp only [fatal, sprintln, sprint, String.append_assoc]⟩
  · intro h
    rw [main_not_iterm env h]
    exact endsFatal_fatal _ _ rfl
  · intro h1 h2
    rw [main_screen env h1 h2]
    exact endsFatal_fatal _ _ rfl
  · intro e h1 h2 h3
    rw [main_bad_spec env h1 h2 e h3]
    exact endsFatal_fatal _ _ rfl
  · intro e pre it rest h1 h2 h3 hrun herr hc hpre hsize
    rw [main_closing_fails env h1 h2 h3 hrun herr pre it rest e hc hpre hsize]
    exact endsFatal_append
      (Event.newSource (selectSource env.url env.interval env.steps) :: Event.goStart ::
        Event.run :: (clear ++ (schedLoop 0 (env.running.map Frame.onTick)).1 ++
          Event.runReturn none :: Event.closeExit ::
            ((schedLoop env.running.length pre).1 ++
              [Event.sizeQuery (SizeResult.err e)]))) _ _ rfl |> (by simpa using ·)
  · intro e h1 h2 h3 herr
    rcases frames_ok_or_fail env.running with hall | ⟨pre, f, rest, e', hr, hpre, hf⟩
    · exact exitCode_endsFatal _ _ (site6 e h1 h2 h3 hall herr)
    · exact exitCode_endsFatal _ _ (site4 e' pre f rest h1 h2 h3 hr hpre hf)

theorem fatal_line_exit_one_witness :
    endsFatal (main envScreen) "screen and tmux not supported" ∧
      endsFatal (main envRunFails) ("Data source error: " ++ " " ++ "connection refused") ∧
      exitCode (main envRunFails) = some 1 ∧
      main envScreen =
        [Event.stdOut "jplot:  screen and tmux not supported\n", Event.exit 1] :=
  ⟨(fatal_line_exit_one envScreen).2.2.1 rfl rfl,
    (fatal_line_exit_one envRunFails).2.2.2.2.2.2.1 "connection refused" rfl (by decide) rfl
      (by decide) rfl,
    (fatal_line_exit_one envRunFails).2.2.2.2.2.2.2 "connection refused" rfl (by decide) rfl
      rfl,
    by decide⟩

/-! ## Frames and the escape sequences before them -/

theorem isImage_jplot (t : String) : isImage ("jplot: " ++ t) = false := by
  have h1 : ("jplot: " ++ t).data = 'j' :: ("plot: ".data ++ t.data) := by
    rw [String.data_append]; rfl
  have h2 : imagePrefix.data =
      '\x1b' :: "]1337;File=preserveAspectRatio=1;inline=1:".data := rfl
  unfold isImage
  rw [h1, h2]
  simp [List.isPrefixOf]

theorem isImage_fatal_line (a : List String) : isImage (sprintln ("jplot: " :: a)) = false := by
  cases a with
  | nil => exact isImage_jplot "\n"
  | cons x rest =>
    have h : sprintln ("jplot: " :: x :: rest) = "jplot: " ++ (" " ++ sprint (x :: rest) ++ "\n") := by
      simp only [sprintln, sprint, String.append_assoc]
    rw [h]
    exact isImage_jplot _

theorem isImage_image (text : String) : isImage (imagePrefix ++ text ++ imageSuffix) = true := by
  unfold isImage
  rw [String.data_append, String.data_append, List.append_assoc]
  exact List.isPrefixOf_iff_prefix.2 (List.prefix_append _ _)

theorem framesPrecededBy_schedLoop (iters : List Iter) (i : Nat) (seen : Bool) :
    framesPrecededBy homesCursor seen (schedLoop i iters).1 = true := by
  induction iters generalizing i seen with
  | nil => simp [schedLoop_nil, framesPrecededBy]
  | cons it rest ih =>
    cases hsize : it.size with
    | err e =>
      rw [schedLoop_err i it rest e hsize]
      simp [fatal, framesPrecededBy, isImage_fatal_line]
    | ok w h =>
      cases hsel : it.sel with
      | tick =>
        rw [schedLoop_tick i it rest w h hsize hsel]
        have hc : homesCursor "\x1b]1337;ClearScrollback\x07" = false := by decide
        have hh : homesCursor "\x1b[1;1H" = true := by decide
        by_cases hd : (i + 1) % 120 = 0
        · simp [hd, cleanup, render, reset, framesPrecededBy, hc, hh, isImage_image, ih]
        · simp [hd, render, reset, framesPrecededBy, hh, isImage_image, ih]
      | exit =>
        rw [schedLoop_exit i it rest w h hsize hsel]
        have hh : homesCursor "\x1b[1;1H" = true := by decide
        simp [render, reset, framesPrecededBy, hh, isImage_image]

/-- C9, as stated, fails: in a run of two ticks the screen is cleared once, by
`clear()` before the first frame; between the first image and the second only
`ESC [ 1 ; 1 H` is written, so the second frame has no clear-screen sequence
before it. -/
theorem second_frame_not_cleared :
    (scheduler [tickIter, tickIter]).1 =
        [Event.errOut "\x1b[H\x1b[2J", Event.errOut "\x1b]1337;CursorShape=1\x07",
          Event.sizeQuery (SizeResult.ok 80 24), Event.recvTick, Event.dashRender 80 24,
          Event.errOut "\x1b[1;1H",
          Event.stdOut pngFrame,
          Event.sizeQuery (SizeResult.ok 80 24), Event.recvTick, Event.dashRender 80 24,
          Event.errOut "\x1b[1;1H",
          Event.stdOut pngFrame] ∧
      clearsScreen "\x1b[1;1H" = false ∧
      framesPrecededBy clearsScreen false (scheduler [tickIter, tickIter]).1 = false := by
  decide

/-! ## The size a render uses -/

theorem renderCalls_render (q : Option SizeResult) (r : Option Sel)
    (draw : Int → Int → List (List Nat)) (w h : Int) (t : List Event) :
    renderCalls q r (render draw w h ++ t) = ⟨w, h, q, r⟩ :: renderCalls q r t := by
  simp [render, reset, renderCalls]

theorem renderCalls_schedLoop (iters : List Iter) (i : Nat) (q : Option SizeResult)
    (r : Option Sel) :
    (renderCalls q r (schedLoop i iters).1).all RenderCall.queriedBeforeSelect = true := by
  induction iters generalizing i q r with
  | nil => simp [schedLoop_nil, renderCalls]
  | cons it rest ih =>
    cases hsize : it.size with
    | err e =>
      rw [schedLoop_err i it rest e hsize]
      simp [fatal, renderCalls]
    | ok w h =>
      cases hsel : it.sel with
      | tick =>
        rw [schedLoop_tick i it rest w h hsize hsel]
        by_cases hd : (i + 1) % 120 = 0
        · simp [hd, cleanup, renderCalls, renderCalls_render, ih,
            RenderCall.queriedBeforeSelect, RenderCall.usesQuery]
        · simp [hd, renderCalls, renderCalls_render, ih,
            RenderCall.queriedBeforeSelect, RenderCall.usesQuery]
      | exit =>
        rw [schedLoop_exit i it rest w h hsize hsel]
        simp [renderCalls, renderCalls_render,
          RenderCall.queriedBeforeSelect, RenderCall.usesQuery]

/-- C10, as stated, fails: in a run of two ticks the first render gets 80 x 24
from the size query made before the first tick was received, and no size query
lies between a tick and its render; the query made after the first tick
(100 x 30) is used by the render of the second tick. -/
theorem render_uses_size_from_before_tick :
    (schedLoop 0 [tickIter, tickIterWide]).1 =
        [Event.sizeQuery (SizeResult.ok 80 24), Event.recvTick, Event.dashRender 80 24,
          Event.errOut "\x1b[1;1H",
          Event.stdOut pngFrame,
          Event.sizeQuery (SizeResult.ok 100 30), Event.recvTick, Event.dashRender 100 30,
          Event.errOut "\x1b[1;1H",
          Event.stdOut pngFrame] ∧
      renderCalls none none (schedLoop 0 [tickIter, tickIterWide]).1 =
        [⟨80, 24, some (SizeResult.ok 80 24), some Sel.tick⟩,
          ⟨100, 30, some (SizeResult.ok 100 30), some Sel.tick⟩] ∧
      (renderCalls none none (schedLoop 0 [tickIter, tickIterWide]).1).all
        RenderCall.queriedAfterTick = false := by
  decide

/-- C10, amended: every render of the loop uses the width and height returned
by the size query of its own iteration, and that query is made before the
`select` receives (the tick or `exit`): right after the render before, or at
the start of the task for the first one. -/
theorem render_uses_size_of_iteration (iters : List Iter) (i : Nat) :
    (renderCalls none none (schedLoop i iters).1).all
      RenderCall.queriedBeforeSelect = true :=
  renderCalls_schedLoop iters i none none

/-! ## The base64 encoder and the text `render` prints -/

theorem encode_append (full ys : List Nat) (h : full.length % 3 = 0) :
    encode (full ++ ys) = encode full ++ encode ys := by
  induction full using encode.induct with
  | case1 a b c rest ih =>
    have h' : rest.length % 3 = 0 := by
      simp only [List.length_cons] at h; omega
    simp [encode, ih h']
  | case2 a b => simp at h
  | case3 a => simp at h
  | case4 => simp [encode]

theorem encode_eq_nil (xs : List Nat) (h : encode xs = []) : xs = [] := by
  match xs with
  | [] => rfl
  | [_] => simp [encode] at h
  | [_, _] => simp [encode] at h
  | _ :: _ :: _ :: _ => simp [encode] at h

theorem writeGroups_spec (p : List Nat) :
    ∃ g, p = g ++ (writeGroups p).2 ∧ g.length % 3 = 0 ∧ (writeGroups p).1 = encode g ∧
      (writeGroups p).2.length < 3 := by
  induction p using writeGroups.induct with
  | case1 a b c rest ih =>
    obtain ⟨g, hg, hlen, henc, hrem⟩ := ih
    refine ⟨a :: b :: c :: g, ?_, ?_, ?_, ?_⟩
    · simp only [writeGroups, List.cons_append, List.cons.injEq, true_and]
      exact hg
    · simp only [List.length_cons]; omega
    · have e : a :: b :: c :: g = [a, b, c] ++ g := rfl
      rw [e, encode_append [a, b, c] g (by simp)]
      simp only [writeGroups]
      rw [henc]
    · simpa only [writeGroups] using hrem
  | case2 p hp =>
    refine ⟨[], ?_, rfl, ?_, ?_⟩
    · rw [writeGroups]
      · rfl
      · exact hp
    · rw [writeGroups]
      · rfl
      · exact hp
    · rw [writeGroups]
      · match p, hp with
        | [], _ => simp
        | [_], _ => simp
        | [_, _], _ => simp
        | a :: b :: c :: rest, hp => exact absurd rfl (hp a b c rest)
      · exact hp

theorem fillBuf_spec (p buf : List Nat) :
    (fillBuf buf p).1 ++ (fillBuf buf p).2 = buf ++ p ∧
      (buf.length ≤ 3 → (fillBuf buf p).1.length ≤ 3) ∧
      ((fillBuf buf p).1.length < 3 → (fillBuf buf p).2 = []) := by
  induction p generalizing buf with
  | nil => simp [fillBuf]
  | cons x p ih =>
    by_cases hb : buf.length < 3
    · obtain ⟨h1, h2, h3⟩ := ih (buf ++ [x])
      simp only [fillBuf, hb, if_true]
      refine ⟨by simpa using h1, fun _ => h2 (by simp; omega), h3⟩
    · simp only [fillBuf, hb, if_false]
      exact ⟨trivial, fun h => h, fun h => h.elim⟩

theorem Encoder.new_holds : Encoder.new.holds [] :=
  ⟨[], rfl, rfl, rfl, by decide⟩

theorem Encoder.write_holds (e : Encoder) (xs p : List Nat) (h : e.holds xs) :
    (e.write p).holds (xs ++ p) := by
  obtain ⟨full, hxs, hlen, hout, hbuf⟩ := h
  unfold Encoder.write
  by_cases hb : 0 < e.buf.length
  · obtain ⟨f1, f2, f3⟩ := fillBuf_spec p e.buf
    simp only [hb, if_true]
    by_cases hf : (fillBuf e.buf p).1.length < 3
    · simp only [hf, if_true]
      refine ⟨full, ?_, hlen, hout, hf⟩
      rw [hxs, List.append_assoc, ← f1, f3 hf, List.append_nil]
    · simp only [hf, if_false]
      obtain ⟨g, hg, hglen, hgenc, hgrem⟩ := writeGroups_spec (fillBuf e.buf p).2
      have h3 : (fillBuf e.buf p).1.length = 3 := by
        have := f2 (by omega)
        omega
      refine ⟨full ++ (fillBuf e.buf p).1 ++ g, ?_, ?_, ?_, hgrem⟩
      · rw [hxs, List.append_assoc, ← f1]
        conv_lhs => rw [hg]
        simp
      · simp only [List.length_append]; omega
      · simp only [List.append_assoc]
        rw [encode_append full _ hlen, encode_append (fillBuf e.buf p).1 g (by omega),
          hout, hgenc]
  · simp only [hb, if_false]
    have hnil : e.buf = [] := List.length_eq_zero.1 (by omega)
    obtain ⟨g, hg, hglen, hgenc, hgrem⟩ := writeGroups_spec p
    refine ⟨full ++ g, ?_, ?_, ?_, hgrem⟩
    · rw [hxs, hnil, List.append_nil, List.append_assoc]
      conv_lhs => rw [hg]
    · simp only [List.length_append]; omega
    · rw [encode_append full g hlen, hout, hgenc]

theorem foldl_write_holds (writes : List (List Nat)) (e : Encoder) (xs : List Nat)
    (h : e.holds xs) : (writes.foldl Encoder.write e).holds (xs ++ writes.flatten) := by
  induction writes generalizing e xs with
  | nil => simpa using h
  | cons p writes ih =>
    have := ih (e.write p) (xs ++ p) (Encoder.write_holds e xs p h)
    simpa using this

theorem afterRender_holds (writes : List (List Nat)) :
    (afterRender writes).holds (imageBytes writes) := by
  have := foldl_write_holds writes Encoder.new [] Encoder.new_holds
  simpa [afterRender, imageBytes] using this

/-- What `render` prints is the encoding of the longest prefix of the image
that is a whole number of 3-byte groups. -/
theorem payload_eq (writes : List (List Nat)) :
    payload writes =
      encode ((imageBytes writes).take (3 * ((imageBytes writes).length / 3))) := by
  obtain ⟨full, hxs, hlen, hout, hbuf⟩ := afterRender_holds writes
  have hl : (imageBytes writes).length = full.length + (afterRender writes).buf.length := by
    rw [hxs, List.length_append]
  have hk : 3 * ((imageBytes writes).length / 3) = full.length := by omega
  rw [hk, hxs, List.take_left']
  · exact hout
  · rfl

/-- The buffer holds the complete padded encoding of the image only after the
deferred `enc.Close()`. -/
theorem bufferAtReturn_eq (writes : List (List Nat)) :
    bufferAtReturn writes = encode (imageBytes writes) := by
  obtain ⟨full, hxs, hlen, hout, hbuf⟩ := afterRender_holds writes
  unfold bufferAtReturn Encoder.close
  by_cases hb : 0 < (afterRender writes).buf.length
  · simp only [hb, if_true]
    rw [hxs, encode_append full _ hlen, hout]
  · simp only [hb, if_false]
    have hnil : (afterRender writes).buf = [] := List.length_eq_zero.1 (by omega)
    rw [hxs, hnil, List.append_nil, hout]

/-- What `render` prints is the complete encoding of the image exactly when the
length of the image is a multiple of 3. -/
theorem payload_complete_iff (writes : List (List Nat)) :
    payload writes = encode (imageBytes writes) ↔ (imageBytes writes).length % 3 = 0 := by
  obtain ⟨full, hxs, hlen, hout, hbuf⟩ := afterRender_holds writes
  have hl : (imageBytes writes).length = full.length + (afterRender writes).buf.length := by
    rw [hxs, List.length_append]
  constructor
  · intro h
    have h2 : encode full = encode full ++ encode (afterRender writes).buf := by
      have h' := h
      unfold payload at h'
      rw [hout] at h'
      conv_rhs at h' => rw [hxs, encode_append full _ hlen]
      exact h'
    have h3 : encode (afterRender writes).buf = [] := by
      have := congrArg List.length h2
      simp only [List.length_append] at this
      exact List.length_eq_zero.1 (by omega)
    have h4 := encode_eq_nil _ h3
    rw [hl, h4]
    simpa using hlen
  · intro h
    have hnil : (afterRender writes).buf = [] := List.length_eq_zero.1 (by omega)
    unfold payload
    rw [hout]
    conv_rhs => rw [hxs, hnil, List.append_nil]

/-- C1 fails on the code: for a PNG image of 67 bytes `render` prints the
encoding of the first 66 bytes only; the complete padded encoding has 4 more
characters (`gg==`), which reach the buffer through the deferred
`enc.Close()`, after the `fmt.Printf`. In general the text printed is the
complete encoding exactly when the length of the image is a multiple of 3. -/
theorem render_prints_before_close :
    render drawPng 80 24 =
        [Event.dashRender 80 24, Event.errOut "\x1b[1;1H",
          Event.stdOut (imagePrefix ++ pngPrinted ++ imageSuffix)] ∧
      (imageBytes (drawPng 80 24)).length = 67 ∧
      payload (drawPng 80 24) = pngPrinted.toList ∧
      pngPrinted.toList = encode ((imageBytes (drawPng 80 24)).take 66) ∧
      encode (imageBytes (drawPng 80 24)) = pngEncoded.toList ∧
      pngEncoded = pngPrinted ++ "gg==" ∧
      bufferAtReturn (drawPng 80 24) = pngEncoded.toList ∧
      (∀ writes, payload writes = encode (imageBytes writes) ↔
        (imageBytes writes).length % 3 = 0) ∧
      (∀ writes, bufferAtReturn writes = encode (imageBytes writes)) :=
  ⟨by decide, by decide, by decide, by decide, by decide, by decide, by decide,
    payload_complete_iff, bufferAtReturn_eq⟩

/-! ## No clearing of the screen in the loop -/

theorem b64_ne_esc (n : Nat) : b64 (n % 64) ≠ '\x1b' := by
  have h : ∀ v, v < 64 → b64 v ≠ '\x1b' := by decide
  exact h (n % 64) (Nat.mod_lt n (by decide))

theorem esc_not_mem_encode (xs : List Nat) : '\x1b' ∉ encode xs := by
  have hp : '\x1b' ≠ padChar := by decide
  induction xs using encode.induct with
  | case1 a b c rest ih =>
    simp only [encode, List.mem_cons, not_or]
    exact ⟨(b64_ne_esc _).symm, (b64_ne_esc _).symm, (b64_ne_esc _).symm,
      (b64_ne_esc _).symm, ih⟩
  | case2 a b =>
    simp only [encode, List.mem_cons, List.mem_nil_iff, or_false, not_or]
    exact ⟨(b64_ne_esc _).symm, (b64_ne_esc _).symm, (b64_ne_esc _).symm, hp⟩
  | case3 a =>
    simp only [encode, List.mem_cons, List.mem_nil_iff, or_false, not_or]
    exact ⟨(b64_ne_esc _).symm, (b64_ne_esc _).symm, hp, hp⟩
  | case4 => simp [encode]

theorem esc_not_mem_payload (writes : List (List Nat)) : '\x1b' ∉ payload writes := by
  rw [payload_eq]
  exact esc_not_mem_encode _

theorem hasInfix_cons (p : List Char) (c : Char) (t : List Char) :
    hasInfix p (c :: t) = (p.isPrefixOf (c :: t) || hasInfix p t) := rfl

/-- A text without `ESC` holds no sequence that starts with `ESC`. -/
theorem hasInfix_esc (q t : List Char) (h : '\x1b' ∉ t) :
    hasInfix ('\x1b' :: q) t = false := by
  induction t with
  | nil => rfl
  | cons c t ih =>
    simp only [List.mem_cons, not_or] at h
    have hc : ('\x1b' == c) = false := by simpa using h.1
    simp only [hasInfix, List.isPrefixOf, hc, Bool.false_and, Bool.false_or]
    exact ih h.2

/-- The image text `render` prints holds no clear-screen sequence, whatever
the image. -/
theorem clearsScreen_image (writes : List (List Nat)) :
    clearsScreen (imagePrefix ++ String.mk (payload writes) ++ imageSuffix) = false := by
  have hd : (imagePrefix ++ String.mk (payload writes) ++ imageSuffix).data =
      '\x1b' :: ("]1337;File=preserveAspectRatio=1;inline=1:".data ++
        (payload writes ++ imageSuffix.data)) := by
    rw [String.data_append, String.data_append, List.append_assoc]
    rfl
  have hp : "\x1b[2J".data = '\x1b' :: "[2J".data := rfl
  have hfree : '\x1b' ∉ "]1337;File=preserveAspectRatio=1;inline=1:".data ++
      (payload writes ++ imageSuffix.data) := by
    have h1 : '\x1b' ∉ "]1337;File=preserveAspectRatio=1;inline=1:".data := by decide
    have h2 : '\x1b' ∉ imageSuffix.data := by decide
    simp only [List.mem_append, not_or]
    exact ⟨h1, esc_not_mem_payload writes, h2⟩
  have htail := hasInfix_esc "[2J".data _ hfree
  have hhead : List.isPrefixOf ('\x1b' :: "[2J".data)
      ('\x1b' :: ("]1337;File=preserveAspectRatio=1;inline=1:".data ++
        (payload writes ++ imageSuffix.data))) = false := by
    have e1 : "]1337;File=preserveAspectRatio=1;inline=1:".data =
        ']' :: "1337;File=preserveAspectRatio=1;inline=1:".data := rfl
    have e2 : "[2J".data = '[' :: "2J".data := rfl
    have e3 : ('[' == ']') = false := by decide
    rw [e1, e2]
    simp only [List.cons_append, List.isPrefixOf, e3, Bool.false_and, Bool.and_false]
  unfold clearsScreen
  rw [hd, hp, hasInfix_cons, hhead, htail]
  rfl

/-- In the loop no frame has a clear-screen sequence before it or in it. -/
theorem framesWithout_schedLoop (iters : List Iter) (i : Nat) :
    framesWithout clearsScreen false (schedLoop i iters).1 = true := by
  induction iters generalizing i with
  | nil => simp [schedLoop_nil, framesWithout]
  | cons it rest ih =>
    cases hsize : it.size with
    | err e =>
      rw [schedLoop_err i it rest e hsize]
      simp [fatal, framesWithout, isImage_fatal_line]
    | ok w h =>
      have hh : clearsScreen "\x1b[1;1H" = false := by decide
      have hi := clearsScreen_image (it.draw w h)
      cases hsel : it.sel with
      | tick =>
        rw [schedLoop_tick i it rest w h hsize hsel]
        have hc : clearsScreen "\x1b]1337;ClearScrollback\x07" = false := by decide
        by_cases hd : (i + 1) % 120 = 0
        · simp [hd, cleanup, render, reset, framesWithout, hc, hh, hi, isImage_image, ih]
        · simp [hd, render, reset, framesWithout, hh, hi, isImage_image, ih]
      | exit =>
        rw [schedLoop_exit i it rest w h hsize hsel]
        simp [render, reset, framesWithout, hh, hi, isImage_image]

/-- C9, amended: every `render` writes `ESC [ 1 ; 1 H` (cursor to the top-left,
no clearing) and then the image, so in every trace of the render task each
image has that sequence before it, after the image before. The screen is
cleared once: by `clear()`, which opens the trace of the task; in the loop
that follows, no frame has a clear-screen sequence before it or in it. -/
theorem frame_after_cursor_home (iters : List Iter) (draw : Int → Int → List (List Nat))
    (w h : Int) :
    render draw w h =
        [Event.dashRender w h, Event.errOut "\x1b[1;1H",
          Event.stdOut (imagePrefix ++ String.mk (payload (draw w h)) ++ imageSuffix)] ∧
      framesPrecededBy homesCursor false (scheduler iters).1 = true ∧
      (∃ t, (scheduler iters).1 = Event.errOut "\x1b[H\x1b[2J" :: t) ∧
      clearsScreen "\x1b[H\x1b[2J" = true ∧ clearsScreen "\x1b[1;1H" = false ∧
      (scheduler iters).1 =
        Event.errOut "\x1b[H\x1b[2J" :: Event.errOut "\x1b]1337;CursorShape=1\x07" ::
          (schedLoop 0 iters).1 ∧
      clearsScreen "\x1b]1337;CursorShape=1\x07" = false ∧
      framesWithout clearsScreen false (schedLoop 0 iters).1 = true := by
  refine ⟨rfl, ?_, ⟨_, rfl⟩, by decide, by decide, rfl, by decide,
    framesWithout_schedLoop iters 0⟩
  have hc1 : homesCursor "\x1b[H\x1b[2J" = false := by decide
  have hc2 : homesCursor "\x1b]1337;CursorShape=1\x07" = false := by decide
  simp [scheduler, clear, framesPrecededBy, hc1, hc2, framesPrecededBy_schedLoop]

end Jplot
